import Mathlib

/-! Verification of the top-movers server (src/src/server.ts).

The server normalizes stock data from two providers.  We embed the
numeric-string parsing, the two normalizers, the zod limit schema and the
HTTP endpoint handlers as executable Lean functions.  JavaScript numbers
are modelled as exact rationals extended with NaN and the two infinities;
`Number.parseFloat` and `Number.parseInt` are modelled after their
ECMAScript definitions (longest valid literal prefix, `Infinity` literal
included), with float rounding and overflow idealized away. -/

deriving instance DecidableEq for Except

namespace TopMovers

/-- A JavaScript number: NaN, +Infinity, -Infinity, or a finite value
(modelled as an exact rational). -/
inductive JsNum where
  | nan : JsNum
  | inf : JsNum
  | negInf : JsNum
  | num : ℚ → JsNum
deriving DecidableEq, Repr

/-- Value of a decimal digit character. -/
def digitVal (c : Char) : ℕ := c.toNat - '0'.toNat

/-- Fold a list of decimal digit characters into a natural number. -/
def digitsToNat (ds : List Char) : ℕ :=
  ds.foldl (fun n c => 10 * n + digitVal c) 0

/-- Consume an optional leading sign; returns (isNegative, rest). -/
def parseSign : List Char → (Bool × List Char)
  | '-' :: rest => (true, rest)
  | '+' :: rest => (false, rest)
  | l => (false, l)

/-- Whether the character list begins with the literal `Infinity`. -/
def startsWithInfinity (l : List Char) : Bool :=
  l.take 8 = ['I', 'n', 'f', 'i', 'n', 'i', 't', 'y']

/-- Consume an optional exponent part `e`/`E` [sign] digits; an exponent
marker not followed by digits is ignored (ECMAScript longest-valid-literal
behaviour). -/
def parseExponent (l : List Char) : ℤ :=
  match l with
  | 'e' :: rest | 'E' :: rest =>
    let (neg, rest2) := parseSign rest
    let ds := rest2.takeWhile Char.isDigit
    if ds.isEmpty then 0
    else if neg then -(digitsToNat ds : ℤ) else (digitsToNat ds : ℤ)
  | _ => 0

/-- The mathematical value of a decimal literal with sign `neg`, digit
string value `m` (integer and fraction digits concatenated) and decimal
exponent `e` (exponent part minus the number of fraction digits):
`±m × 10^e` as an exact rational. -/
def decimalValue (neg : Bool) (m : ℕ) (e : ℤ) : ℚ :=
  let n : ℤ := if neg then -(m : ℤ) else (m : ℤ)
  if 0 ≤ e then mkRat (n * ((10 ^ e.toNat : ℕ) : ℤ)) 1
  else mkRat n (10 ^ (-e).toNat)

/-- Core of `Number.parseFloat` on a character list with leading
whitespace already removed: optional sign, then either `Infinity` or a
decimal mantissa with optional fraction and exponent; NaN when no digit is
found. -/
def jsParseFloatCore (l : List Char) : JsNum :=
  let s := parseSign l
  let l1 := s.2
  if startsWithInfinity l1 then (if s.1 then JsNum.negInf else JsNum.inf)
  else
    let intDigits := l1.takeWhile Char.isDigit
    let l2 := l1.dropWhile Char.isDigit
    let fracAndRest : List Char × List Char :=
      match l2 with
      | '.' :: rest => (rest.takeWhile Char.isDigit, rest.dropWhile Char.isDigit)
      | _ => ([], l2)
    let fracDigits := fracAndRest.1
    if intDigits.isEmpty ∧ fracDigits.isEmpty then JsNum.nan
    else
      let m := digitsToNat (intDigits ++ fracDigits)
      let e := parseExponent fracAndRest.2 - fracDigits.length
      JsNum.num (decimalValue s.1 m e)

/-- Model of `Number.parseFloat`. -/
def jsParseFloat (s : String) : JsNum :=
  jsParseFloatCore (s.data.dropWhile Char.isWhitespace)

/-- Model of `Number.parseInt(s, 10)`. -/
def jsParseInt (s : String) : JsNum :=
  let l := s.data.dropWhile Char.isWhitespace
  let sg := parseSign l
  let ds := sg.2.takeWhile Char.isDigit
  if ds.isEmpty then JsNum.nan
  else JsNum.num (mkRat (if sg.1 then -(digitsToNat ds : ℤ) else (digitsToNat ds : ℤ)) 1)

/-- Model of `String.prototype.trim`: remove leading and trailing
whitespace. -/
def jsTrim (s : String) : String :=
  ⟨((s.data.dropWhile Char.isWhitespace).reverse.dropWhile Char.isWhitespace).reverse⟩

/-- A character removed by `value.replace(/[+,%$M]/g, '')`. -/
def isDecoration (c : Char) : Bool :=
  c = '+' || c = ',' || c = '%' || c = '$' || c = 'M'

/-- `value.replace(/[+,%$M]/g, '')`. -/
def stripDecoration (s : String) : String :=
  ⟨s.data.filter (fun c => !(isDecoration c))⟩

/-- `parseNumericString` from server.ts: `null` on an absent or empty
(falsy) input, otherwise strip decoration characters, trim, `parseFloat`,
and return `null` exactly when the result is NaN. -/
def parseNumericString (value : Option String) : Option JsNum :=
  match value with
  | none => none
  | some s =>
    if s = "" then none
    else
      let normalized := jsTrim (stripDecoration s)
      let parsed := jsParseFloat normalized
      if parsed = JsNum.nan then none else some parsed

/-- A raw Provider A record: string keys mapped to string values
(`Record<string, string>`). -/
abbrev Entry := List (String × String)

/-- Property access `entry.key` on a raw record. -/
def getField (entry : Entry) (key : String) : Option String :=
  (entry.find? (fun p => p.1 == key)).map Prod.snd

/-- `vm * 1_000_000` on a JavaScript number. -/
def jsMulMillion : JsNum → JsNum
  | JsNum.nan => JsNum.nan
  | JsNum.inf => JsNum.inf
  | JsNum.negInf => JsNum.negInf
  | JsNum.num q => JsNum.num (q * 1000000)

/-- `Math.round`: for a finite value, the floor of `x + 1/2`; NaN and the
infinities are returned unchanged. -/
def jsRound : JsNum → JsNum
  | JsNum.num q => JsNum.num ((⌊q + 1 / 2⌋ : ℤ) : ℚ)
  | x => x

/-- The normalized Provider A record shape (an element of the tool
output's `gainers` / `losers` / `mostActive` arrays). -/
structure MoversRecord where
  ticker : String
  price : JsNum
  change : JsNum
  changePercent : JsNum
  volume : Option JsNum
deriving DecidableEq, Repr

/-- `normalizeEntry` from server.ts. -/
def normalizeEntry (entry : Entry) : MoversRecord :=
  { ticker := (getField entry "ticker").getD ((getField entry "symbol").getD "N/A")
    price := (parseNumericString (getField entry "price")).getD (JsNum.num 0)
    change := (parseNumericString (getField entry "change_amount")).getD (JsNum.num 0)
    changePercent := (parseNumericString (getField entry "change_percentage")).getD (JsNum.num 0)
    volume :=
      match parseNumericString (getField entry "volume") with
      | some rawVolume => some rawVolume
      | none =>
        match parseNumericString (getField entry "volume_millions") with
        | some volumeMillions => some (jsRound (jsMulMillion volumeMillions))
        | none => none }

/-- An upstream HTTP response as seen after `fetch`: the `ok` flag, the
status code, and the already-parsed JSON body. -/
structure FetchResponse (β : Type) where
  ok : Bool
  status : ℕ
  body : β
deriving DecidableEq, Repr

/-- The parsed Alpha Vantage response body (`TopMoversResponse`). -/
structure TopMoversResponse where
  top_gainers : Option (List Entry)
  top_losers : Option (List Entry)
  top_most_actively_traded : Option (List Entry)
  message : Option String
  note : Option String
deriving DecidableEq, Repr

/-- The validated tool output (`ToolOutput`). -/
structure ToolOutput where
  gainers : List MoversRecord
  losers : List MoversRecord
  mostActive : List MoversRecord
deriving DecidableEq, Repr

/-- `ensureSuccess` from server.ts: error unless `response.ok`. -/
def ensureSuccess {β : Type} (response : FetchResponse β) : Except String Unit :=
  if response.ok then Except.ok ()
  else Except.error ("Alpha Vantage request failed with status " ++ toString response.status)

/-- The zod `limitSchema`: `z.number().int().min(1).max(20).default(10)`.
`undefined` takes the default; NaN fails the number check; non-integers
and the infinities fail `.int()`; values outside `[1, 20]` fail
`.min(1)` / `.max(20)`.  Validation rejects — it does not clamp. -/
def limitSchemaParse (input : Option JsNum) : Except String ℕ :=
  match input with
  | none => Except.ok 10
  | some JsNum.nan => Except.error "limit must be a number"
  | some JsNum.inf => Except.error "Expected integer, received float"
  | some JsNum.negInf => Except.error "Expected integer, received float"
  | some (JsNum.num q) =>
    if q.den ≠ 1 then Except.error "Expected integer, received float"
    else if q < 1 then Except.error "Number must be greater than or equal to 1"
    else if 20 < q then Except.error "Number must be less than or equal to 20"
    else Except.ok q.num.toNat

/-- `normalizeList` from `getTopMovers`: `(items ?? []).slice(0, limitValue)`
mapped through `normalizeEntry`. -/
def normalizeList (limitValue : ℕ) (items : Option (List Entry)) : List MoversRecord :=
  ((items.getD []).take limitValue).map normalizeEntry

/-- `getTopMovers` from server.ts as a function of the environment's API
key, the upstream response, and the `limit` argument.  `!apiKey` is the
JavaScript truthiness test (undefined or empty string); likewise
`data.message || data.note`. -/
def getTopMovers (apiKey : Option String) (resp : FetchResponse TopMoversResponse)
    (limit : JsNum) : Except String ToolOutput :=
  if apiKey.getD "" = "" then
    Except.error "Missing ALPHA_VANTAGE_API_KEY environment variable."
  else
    match ensureSuccess resp with
    | Except.error e => Except.error e
    | Except.ok _ =>
      let data := resp.body
      if data.message.getD "" ≠ "" ∨ data.note.getD "" ≠ "" then
        Except.error
          (if data.message.getD "" ≠ "" then data.message.getD ""
           else if data.note.getD "" ≠ "" then data.note.getD ""
           else "Unexpected response from Alpha Vantage.")
      else
        match limitSchemaParse (some limit) with
        | Except.error e => Except.error e
        | Except.ok limitValue =>
          Except.ok
            { gainers := normalizeList limitValue data.top_gainers
              losers := normalizeList limitValue data.top_losers
              mostActive := normalizeList limitValue data.top_most_actively_traded }

/-- The result an Express handler sends: a JSON body, or an error status
with an error message. -/
inductive ApiResult (α : Type) where
  | ok : α → ApiResult α
  | error : ℕ → String → ApiResult α
deriving DecidableEq, Repr

/-- Whether an `ApiResult` is a success. -/
def ApiResult.isOk {α : Type} : ApiResult α → Bool
  | ApiResult.ok _ => true
  | ApiResult.error _ _ => false

/-- The `GET /api/top-movers` handler's resolution of the `limit` query
parameter: `req.query.limit ? Number.parseInt(String(req.query.limit), 10)
: 10` (an absent or empty parameter is falsy). -/
def resolveLimitParam (limitParam : Option String) : JsNum :=
  match limitParam with
  | none => JsNum.num 10
  | some s => if s = "" then JsNum.num 10 else jsParseInt s

/-- The handler continues: validate with `limitSchema.parse`, call
`getTopMovers`, and convert any thrown error into a 500 response. -/
def topMoversEndpoint (limitParam : Option String) (apiKey : Option String)
    (resp : FetchResponse TopMoversResponse) : ApiResult ToolOutput :=
  match limitSchemaParse (some (resolveLimitParam limitParam)) with
  | Except.error msg => ApiResult.error 500 msg
  | Except.ok limitValue =>
    match getTopMovers apiKey resp (JsNum.num (limitValue : ℚ)) with
    | Except.error msg => ApiResult.error 500 msg
    | Except.ok out => ApiResult.ok out

/-- A raw Provider B quote (`YahooQuote`): every field optional, numeric
fields possibly non-finite. -/
structure YahooQuote where
  symbol : Option String
  shortName : Option String
  longName : Option String
  regularMarketPrice : Option JsNum
  regularMarketPreviousClose : Option JsNum
  regularMarketChange : Option JsNum
  regularMarketChangePercent : Option JsNum
deriving DecidableEq, Repr

/-- One element of `finance.result` in the Yahoo response. -/
structure YahooResultEntry where
  quotes : Option (List YahooQuote)
deriving DecidableEq, Repr

/-- The `finance` object of the Yahoo response. -/
structure YahooFinance where
  result : Option (List YahooResultEntry)
deriving DecidableEq, Repr

/-- The parsed Yahoo response body (`YahooFinanceResponse`). -/
structure YahooFinanceResponse where
  finance : Option YahooFinance
deriving DecidableEq, Repr

/-- The normalized Provider B record shape (`NormalizedYahooQuote`);
numeric fields are `null` when the upstream field is missing or
non-finite, so their carrier here is `Option ℚ`. -/
structure NormalizedYahooQuote where
  symbol : String
  name : String
  price : Option ℚ
  previousClose : Option ℚ
  change : Option ℚ
  changePercent : Option ℚ
deriving DecidableEq, Repr

/-- `isFiniteNumber` from server.ts on an optional JavaScript number:
true exactly for a present finite value. -/
def isFiniteNumber : Option JsNum → Bool
  | some (JsNum.num _) => true
  | _ => false

/-- `isFiniteNumber(v) ? v : null` — the value when finite, else `null`. -/
def finiteOrNull : Option JsNum → Option ℚ
  | some (JsNum.num q) => some q
  | _ => none

/-- `normalizeYahooQuote` from server.ts. -/
def normalizeYahooQuote (quote : YahooQuote) : NormalizedYahooQuote :=
  let symbol := (quote.symbol.map jsTrim).getD "N/A"
  let rawName := quote.shortName.getD (quote.longName.getD "")
  let trimmedName := jsTrim rawName
  { symbol := symbol
    name := if trimmedName.length > 0 then trimmedName else "Unknown Company"
    price := finiteOrNull quote.regularMarketPrice
    previousClose := finiteOrNull quote.regularMarketPreviousClose
    change := finiteOrNull quote.regularMarketChange
    changePercent := finiteOrNull quote.regularMarketChangePercent }

/-- The post-filter of `getYahooGainers`:
`quote.symbol !== 'N/A' && quote.symbol.length > 0`. -/
def symbolOk (quote : NormalizedYahooQuote) : Bool :=
  quote.symbol != "N/A" && quote.symbol.length > 0

/-- `data.finance?.result?.[0]?.quotes ?? []`. -/
def yahooQuotesOf (data : YahooFinanceResponse) : List YahooQuote :=
  (((data.finance.bind YahooFinance.result).bind List.head?).bind YahooResultEntry.quotes).getD []

/-- The normalization pipeline of `getYahooGainers`: map
`normalizeYahooQuote` over the quotes, then keep only records with a
usable symbol. -/
def yahooNormalizedList (quotes : List YahooQuote) : List NormalizedYahooQuote :=
  (quotes.map normalizeYahooQuote).filter symbolOk

/-- `getYahooGainers` from server.ts as a function of the upstream
response: transport failure raises, otherwise the normalized, filtered
quote list is returned. -/
def getYahooGainers (resp : FetchResponse YahooFinanceResponse) :
    Except String (List NormalizedYahooQuote) :=
  if resp.ok = false then
    Except.error ("Yahoo Finance request failed with status " ++ toString resp.status)
  else
    Except.ok (yahooNormalizedList (yahooQuotesOf resp.body))

/-- The `GET /api/yahoo-gainers` handler: the request (including any
`limit` query parameter) is ignored apart from triggering the fetch; any
thrown error becomes a 500 response. -/
def yahooGainersEndpoint (limitParam : Option String)
    (resp : FetchResponse YahooFinanceResponse) : ApiResult (List NormalizedYahooQuote) :=
  match getYahooGainers resp with
  | Except.error msg => ApiResult.error 500 msg
  | Except.ok quotes => ApiResult.ok quotes

/-- The numeric-string parser as §4.1 / §8 of the design document states
it: "no value" when the input is absent or empty, or when the
decoration-stripped, trimmed remainder does not parse as a float;
otherwise the float value of that stripped, trimmed string. -/
def parseNumericStringSpec (value : Option String) : Option JsNum :=
  match value with
  | none => none
  | some s =>
    let stripped := jsTrim (stripDecoration s)
    if s = "" ∨ jsParseFloat stripped = JsNum.nan then none
    else some (jsParseFloat stripped)

/-- A representative raw Provider A record (the §8 end-to-end scenario). -/
def sampleEntry : Entry :=
  [("ticker", "ABC"), ("price", "12.50"), ("change_amount", "+1.25"),
   ("change_percentage", "11.11%"), ("volume", "1000000")]

/-- A second raw record, identified by its `symbol` field. -/
def sampleEntry2 : Entry :=
  [("symbol", "DEF"), ("price", "$3.00"), ("change_amount", "-0.50"),
   ("change_percentage", "-14.29%"), ("volume", "1,234")]

/-- A third raw record with no usable fields at all. -/
def sampleEntry3 : Entry := [("ticker", "GHI")]

/-- A healthy Alpha Vantage response: success status, no error message or
note, three gainers, no losers list content, and the most-active list
absent. -/
def sampleOkResponse : FetchResponse TopMoversResponse :=
  { ok := true
    status := 200
    body :=
      { top_gainers := some [sampleEntry, sampleEntry2, sampleEntry3]
        top_losers := some []
        top_most_actively_traded := none
        message := none
        note := none } }

/-- A Provider B quote whose `shortName` is whitespace-only while
`longName` carries a real company name. -/
def whitespaceNameQuote : YahooQuote :=
  { symbol := some "AAPL"
    shortName := some " "
    longName := some "Apple Inc."
    regularMarketPrice := some (JsNum.num 10)
    regularMarketPreviousClose := none
    regularMarketChange := none
    regularMarketChangePercent := none }

/-- A Provider B quote with a usable symbol and a mix of finite, missing
and non-finite numeric fields. -/
def goodQuote : YahooQuote :=
  { symbol := some "MSFT"
    shortName := some "Microsoft"
    longName := none
    regularMarketPrice := some (JsNum.num 100)
    regularMarketPreviousClose := some JsNum.nan
    regularMarketChange := none
    regularMarketChangePercent := some (JsNum.num (mkRat 5 2)) }

/-- The tool output produced from `sampleOkResponse` at limit 2. -/
def sampleOut2 : ToolOutput :=
  { gainers := normalizeList 2 sampleOkResponse.body.top_gainers
    losers := normalizeList 2 sampleOkResponse.body.top_losers
    mostActive := normalizeList 2 sampleOkResponse.body.top_most_actively_traded }

/-! Helper lemmas. -/

/-- The numeric-string parser never returns NaN: NaN results collapse to
`null`. -/
theorem parseNumericString_ne_nan (v : Option String) (x : JsNum)
    (h : parseNumericString v = some x) : x ≠ JsNum.nan := by
  cases v with
  | none => simp [parseNumericString] at h
  | some s =>
    simp only [parseNumericString] at h
    by_cases hs : s = ""
    · simp [hs] at h
    · simp only [hs, if_false] at h
      by_cases hp : jsParseFloat (jsTrim (stripDecoration s)) = JsNum.nan
      · simp [hp] at h
      · simp only [hp, if_neg, if_false, Option.some.injEq] at h
        exact h ▸ hp

/-- Defaulting a parse result with `?? 0` never yields NaN. -/
theorem parseNumericString_getD_ne_nan (v : Option String) :
    (parseNumericString v).getD (JsNum.num 0) ≠ JsNum.nan := by
  cases h : parseNumericString v with
  | none => simp
  | some x => simpa using parseNumericString_ne_nan v x h

/-- Scaling by one million preserves not-NaN. -/
theorem jsMulMillion_ne_nan (x : JsNum) (h : x ≠ JsNum.nan) :
    jsMulMillion x ≠ JsNum.nan := by
  cases x <;> simp [jsMulMillion] at h ⊢

/-- Rounding preserves not-NaN. -/
theorem jsRound_ne_nan (x : JsNum) (h : x ≠ JsNum.nan) :
    jsRound x ≠ JsNum.nan := by
  cases x <;> simp [jsRound] at h ⊢

/-- Evaluation form of the million scaling: as a single `mkRat`. -/
theorem jsMulMillion_eval (q : ℚ) :
    jsMulMillion (JsNum.num q) = JsNum.num (mkRat (q.num * 1000000) q.den) := by
  simp only [jsMulMillion]
  congr 1
  have hd : ((q.den : ℚ)) ≠ 0 := by exact_mod_cast q.den_ne_zero
  have hq : (q.num : ℚ) = q * (q.den : ℚ) := (div_eq_iff hd).mp (Rat.num_div_den q)
  rw [Rat.mkRat_eq_divInt, Rat.divInt_eq_div]
  push_cast
  rw [eq_div_iff hd, hq]
  ring

/-- Evaluation form of `Math.round`: the floor of a single `mkRat`. -/
theorem jsRound_eval (q : ℚ) :
    jsRound (JsNum.num q)
      = JsNum.num ((⌊mkRat (2 * q.num + q.den) (2 * q.den)⌋ : ℤ) : ℚ) := by
  simp only [jsRound]
  congr 2
  have hd : ((q.den : ℚ)) ≠ 0 := by exact_mod_cast q.den_ne_zero
  have hq : (q.num : ℚ) = q * (q.den : ℚ) := (div_eq_iff hd).mp (Rat.num_div_den q)
  rw [Rat.mkRat_eq_divInt, Rat.divInt_eq_div]
  push_cast
  congr 1
  rw [eq_div_iff (by positivity : ((2 : ℚ) * q.den) ≠ 0), hq]
  ring

/-- `limitSchema.parse` accepts an integral value already in `[1, 20]`. -/
theorem limitSchemaParse_natCast (n : ℕ) (h1 : 1 ≤ n) (h2 : n ≤ 20) :
    limitSchemaParse (some (JsNum.num (n : ℚ))) = Except.ok n := by
  have hden : ((n : ℚ)).den = 1 := Rat.den_natCast n
  have hlt1 : ¬((n : ℚ) < 1) := not_lt.mpr (by exact_mod_cast h1)
  have hlt20 : ¬((20 : ℚ) < (n : ℚ)) := not_lt.mpr (by exact_mod_cast h2)
  simp [limitSchemaParse, hden, hlt1, hlt20]

/-- JavaScript truthiness of the API key: `!apiKey` holds exactly when
the environment variable is unset or the empty string. -/
theorem apiKey_falsy_iff (apiKey : Option String) :
    apiKey.getD "" = "" ↔ (apiKey = none ∨ apiKey = some "") := by
  cases apiKey <;> simp

/-- Success shape of `getTopMovers`: with a truthy key, a successful
transport, no upstream message or note, and an integral limit in
`[1, 20]`, it returns the three normalized, truncated lists. -/
theorem getTopMovers_eq_ok (apiKey : Option String)
    (resp : FetchResponse TopMoversResponse) (n : ℕ) (h1 : 1 ≤ n) (h2 : n ≤ 20)
    (hkey : ¬(apiKey.getD "" = "")) (hok : resp.ok = true)
    (hmsg : resp.body.message.getD "" = "") (hnote : resp.body.note.getD "" = "") :
    getTopMovers apiKey resp (JsNum.num (n : ℚ)) = Except.ok
      { gainers := normalizeList n resp.body.top_gainers
        losers := normalizeList n resp.body.top_losers
        mostActive := normalizeList n resp.body.top_most_actively_traded } := by
  have hcond : ¬(resp.body.message.getD "" ≠ "" ∨ resp.body.note.getD "" ≠ "") := by
    simp [hmsg, hnote]
  simp only [getTopMovers, ensureSuccess, hok, if_true, if_neg hkey, if_neg hcond,
    limitSchemaParse_natCast n h1 h2]

/-- A normalized, truncated list never exceeds the truncation bound. -/
theorem normalizeList_length_le (n : ℕ) (items : Option (List Entry)) :
    (normalizeList n items).length ≤ n := by
  simp only [normalizeList, List.length_map, List.length_take]
  exact min_le_left _ _

/-- An `Except` value is an error exactly when it is not a success. -/
theorem except_error_iff_not_ok {α β : Type} (x : Except α β) :
    (∃ e, x = Except.error e) ↔ ¬(∃ b, x = Except.ok b) := by
  cases x <;> simp

/-- `finiteOrNull` keeps exactly the present finite values. -/
theorem finiteOrNull_spec (o : Option JsNum) :
    (∀ x : ℚ, o = some (JsNum.num x) → finiteOrNull o = some x)
      ∧ (isFiniteNumber o = false → finiteOrNull o = none) := by
  constructor
  · intro x hx
    subst hx
    rfl
  · intro hfin
    cases o with
    | none => rfl
    | some v => cases v <;> simp [isFiniteNumber, finiteOrNull] at hfin ⊢

/-- Inversion for a successful `getTopMovers` call: the output is exactly
the three lists truncated to the (validated) limit and normalized. -/
theorem getTopMovers_ok_inv (apiKey : Option String)
    (resp : FetchResponse TopMoversResponse) (n : ℕ) (h1 : 1 ≤ n) (h2 : n ≤ 20)
    (out : ToolOutput)
    (hout : getTopMovers apiKey resp (JsNum.num (n : ℚ)) = Except.ok out) :
    out = { gainers := normalizeList n resp.body.top_gainers
            losers := normalizeList n resp.body.top_losers
            mostActive := normalizeList n resp.body.top_most_actively_traded } := by
  simp only [getTopMovers, ensureSuccess, limitSchemaParse_natCast n h1 h2] at hout
  split at hout
  · cases hout
  · split at hout
    · cases hout
    · split at hout
      · cases hout
      · cases hout
        rfl

/-- Failure dichotomy of `getTopMovers` for a valid limit: an error
occurs exactly when the key is falsy, the transport failed, or the body
carries a truthy `message` or `note`. -/
theorem getTopMovers_error_iff (apiKey : Option String)
    (resp : FetchResponse TopMoversResponse) (n : ℕ) (h1 : 1 ≤ n) (h2 : n ≤ 20) :
    (∃ e, getTopMovers apiKey resp (JsNum.num (n : ℚ)) = Except.error e) ↔
      (apiKey.getD "" = "" ∨ resp.ok = false
        ∨ resp.body.message.getD "" ≠ "" ∨ resp.body.note.getD "" ≠ "") := by
  constructor
  · intro he
    by_contra hcon
    push_neg at hcon
    obtain ⟨hk, hok, hm, hn⟩ := hcon
    rw [getTopMovers_eq_ok apiKey resp n h1 h2 hk (by
      cases hb : resp.ok
      · exact absurd hb hok
      · rfl) hm hn] at he
    obtain ⟨e, he⟩ := he
    cases he
  · intro hcond
    by_cases hk : apiKey.getD "" = ""
    · refine ⟨"Missing ALPHA_VANTAGE_API_KEY environment variable.", ?_⟩
      unfold getTopMovers
      rw [if_pos hk]
    · by_cases hok : resp.ok = true
      · by_cases hm : resp.body.message.getD "" = ""
        · by_cases hn : resp.body.note.getD "" = ""
          · rcases hcond with h | h | h | h
            · exact absurd h hk
            · rw [hok] at h
              cases h
            · exact absurd hm h
            · exact absurd hn h
          · refine ⟨if resp.body.message.getD "" ≠ "" then resp.body.message.getD ""
                else if resp.body.note.getD "" ≠ "" then resp.body.note.getD ""
                else "Unexpected response from Alpha Vantage.", ?_⟩
            simp only [getTopMovers, ensureSuccess, hok, if_true, if_neg hk]
            rw [if_pos (by simp [hn])]
        · refine ⟨if resp.body.message.getD "" ≠ "" then resp.body.message.getD ""
              else if resp.body.note.getD "" ≠ "" then resp.body.note.getD ""
              else "Unexpected response from Alpha Vantage.", ?_⟩
          simp only [getTopMovers, ensureSuccess, hok, if_true, if_neg hk]
          rw [if_pos (by simp [hm])]
      · refine ⟨"Alpha Vantage request failed with status " ++ toString resp.status, ?_⟩
        unfold getTopMovers ensureSuccess
        rw [if_neg hk, if_neg hok]

/-! Claim theorems. -/

/-- C3: the numeric-string parser is total and returns exactly "no value"
(`null`) when the input is absent or empty or when the
decoration-stripped, trimmed remainder does not parse as a float, and
otherwise the float value of that stripped, trimmed string; an empty or
absent input never yields the number 0. -/
theorem parseNumericString_contract (value : Option String) :
    parseNumericString value = parseNumericStringSpec value
      ∧ parseNumericString none = none
      ∧ parseNumericString (some "") = none := by
  refine ⟨?_, rfl, rfl⟩
  cases value with
  | none => rfl
  | some s =>
    simp only [parseNumericString, parseNumericStringSpec]
    by_cases hs : s = ""
    · simp [hs]
    · by_cases hp : jsParseFloat (jsTrim (stripDecoration s)) = JsNum.nan
      · simp [hs, hp]
      · simp [hs, hp]

/-- C4: the normalized volume is the parsed `volume` field when it
parses (taking precedence); otherwise the parsed `volume_millions` field
scaled by 1,000,000 and rounded to the nearest integer; otherwise `null`,
never 0; and `volume_millions = "2.5"` yields 2,500,000. -/
theorem normalizeEntry_volume_fallback :
    (∀ (e : Entry) (v : JsNum),
        parseNumericString (getField e "volume") = some v →
        (normalizeEntry e).volume = some v)
    ∧ (∀ (e : Entry) (q : ℚ),
        parseNumericString (getField e "volume") = none →
        parseNumericString (getField e "volume_millions") = some (JsNum.num q) →
        (normalizeEntry e).volume = some (JsNum.num ((⌊q * 1000000 + 1 / 2⌋ : ℤ) : ℚ)))
    ∧ (∀ e : Entry,
        parseNumericString (getField e "volume") = none →
        parseNumericString (getField e "volume_millions") = none →
        (normalizeEntry e).volume = none)
    ∧ (normalizeEntry [("volume_millions", "2.5")]).volume = some (JsNum.num 2500000) := by
  refine ⟨?_, ?_, ?_, ?_⟩
  · intro e v h
    simp [normalizeEntry, h]
  · intro e q h1 h2
    simp [normalizeEntry, h1, h2, jsMulMillion, jsRound]
  · intro e h1 h2
    simp [normalizeEntry, h1, h2]
  · have h1 : parseNumericString (getField [("volume_millions", "2.5")] "volume") = none := by
      decide
    have h2 : parseNumericString (getField [("volume_millions", "2.5")] "volume_millions")
        = some (JsNum.num (mkRat 25 10)) := by decide
    simp only [normalizeEntry, h1, h2, jsMulMillion_eval, jsRound_eval]
    decide

/-- C4 witness: a directly parsing `volume` field is returned as parsed,
and a `volume_millions` field of `"2.5"` is scaled and rounded. -/
theorem normalizeEntry_volume_fallback_witness :
    (normalizeEntry [("volume", "1000000")]).volume = some (JsNum.num 1000000)
      ∧ (normalizeEntry [("volume_millions", "2.5")]).volume
          = some (JsNum.num ((⌊(mkRat 25 10 : ℚ) * 1000000 + 1 / 2⌋ : ℤ) : ℚ)) :=
  ⟨normalizeEntry_volume_fallback.1 [("volume", "1000000")] (JsNum.num 1000000) (by decide),
   normalizeEntry_volume_fallback.2.1 [("volume_millions", "2.5")] (mkRat 25 10 : ℚ)
     (by decide) (by decide)⟩

/-- C10: a `volume` field of `"3M"` parses with the `M` stripped as
decoration and no millions scaling — the normalized volume is 3; in
general a parsing `volume` field is returned unscaled. -/
theorem normalizeEntry_volume_M_unscaled :
    (normalizeEntry [("volume", "3M")]).volume = some (JsNum.num 3)
      ∧ (∀ (e : Entry) (v : JsNum),
          parseNumericString (getField e "volume") = some v →
          (normalizeEntry e).volume = some v) := by
  refine ⟨by decide, ?_⟩
  intro e v h
  simp [normalizeEntry, h]

/-- C10 witness: a `"2M"` volume field yields 2, not 2,000,000. -/
theorem normalizeEntry_volume_M_unscaled_witness :
    (normalizeEntry [("volume", "2M")]).volume = some (JsNum.num 2) :=
  normalizeEntry_volume_M_unscaled.2 [("volume", "2M")] (JsNum.num 2) (by decide)

/-- C2 counterexample: a record with a present-but-empty `ticker` field
and a `price` of `"Infinity"` normalizes to an empty ticker and an
infinite price, contradicting the claimed invariant that the ticker is
non-empty and all numeric fields finite. -/
theorem normalizeEntry_invariant_counterexample :
    (normalizeEntry [("ticker", ""), ("price", "Infinity")]).ticker = ""
      ∧ (normalizeEntry [("ticker", ""), ("price", "Infinity")]).price = JsNum.inf := by
  constructor <;> decide

/-- C2 (amended): the ticker falls back to `"N/A"` only when both the
`ticker` and `symbol` fields are absent (a present-but-empty field
passes through), and `price`, `change`, `changePercent` — and `volume`
when present — are never NaN, though they may be infinite. -/
theorem normalizeEntry_never_nan (e : Entry) :
    (getField e "ticker" = none → getField e "symbol" = none →
        (normalizeEntry e).ticker = "N/A")
      ∧ (normalizeEntry e).price ≠ JsNum.nan
      ∧ (normalizeEntry e).change ≠ JsNum.nan
      ∧ (normalizeEntry e).changePercent ≠ JsNum.nan
      ∧ (∀ v : JsNum, (normalizeEntry e).volume = some v → v ≠ JsNum.nan) := by
  refine ⟨?_, ?_, ?_, ?_, ?_⟩
  · intro h1 h2
    simp [normalizeEntry, h1, h2]
  · simpa [normalizeEntry] using parseNumericString_getD_ne_nan (getField e "price")
  · simpa [normalizeEntry] using parseNumericString_getD_ne_nan (getField e "change_amount")
  · simpa [normalizeEntry] using
      parseNumericString_getD_ne_nan (getField e "change_percentage")
  · intro v hv
    simp only [normalizeEntry] at hv
    cases hraw : parseNumericString (getField e "volume") with
    | some rv =>
      rw [hraw] at hv
      simp only [Option.some.injEq] at hv
      exact hv ▸ parseNumericString_ne_nan _ rv hraw
    | none =>
      rw [hraw] at hv
      cases hm : parseNumericString (getField e "volume_millions") with
      | some vm =>
        rw [hm] at hv
        simp only [Option.some.injEq] at hv
        exact hv ▸ jsRound_ne_nan _ (jsMulMillion_ne_nan _ (parseNumericString_ne_nan _ vm hm))
      | none =>
        rw [hm] at hv
        cases hv

/-- C2 witness: on a record with no identifying field the ticker falls
back to `"N/A"`, and the defaulted price is not NaN. -/
theorem normalizeEntry_never_nan_witness :
    (normalizeEntry ([] : Entry)).ticker = "N/A"
      ∧ (normalizeEntry ([] : Entry)).price ≠ JsNum.nan :=
  ⟨(normalizeEntry_never_nan ([] : Entry)).1 rfl rfl,
   (normalizeEntry_never_nan ([] : Entry)).2.1⟩

/-- C5 counterexample: a quote whose `shortName` is present but
whitespace-only and whose `longName` is `"Apple Inc."` normalizes to the
name `"Unknown Company"`, not the trimmed `longName` — the `longName`
fallback fires only when `shortName` is absent, not when it trims to
empty. -/
theorem yahoo_name_whitespace_shortname :
    (normalizeYahooQuote whitespaceNameQuote).name = "Unknown Company"
      ∧ jsTrim (whitespaceNameQuote.longName.getD "") = "Apple Inc."
      ∧ (normalizeYahooQuote whitespaceNameQuote).name
          ≠ jsTrim (whitespaceNameQuote.longName.getD "") := by
  refine ⟨by decide, by decide, by decide⟩

/-- C5 (amended): the normalized name is the trim of (`shortName` if
defined, else `longName`, else the empty string), replaced by
`"Unknown Company"` when that trim is empty; in particular a defined
`shortName` — even a whitespace-only one — means `longName` is never
consulted. -/
theorem yahoo_name_resolution (quote : YahooQuote) :
    ((normalizeYahooQuote quote).name =
        (if (jsTrim (quote.shortName.getD (quote.longName.getD ""))).length > 0
         then jsTrim (quote.shortName.getD (quote.longName.getD ""))
         else "Unknown Company"))
      ∧ (∀ s : String, quote.shortName = some s →
          (normalizeYahooQuote quote).name =
            (if (jsTrim s).length > 0 then jsTrim s else "Unknown Company")) := by
  refine ⟨rfl, ?_⟩
  intro s h
  simp [normalizeYahooQuote, h]

/-- C5 witness: instantiating the name-resolution theorem at the
whitespace-`shortName` quote. -/
theorem yahoo_name_resolution_witness :
    (normalizeYahooQuote whitespaceNameQuote).name =
      (if (jsTrim " ").length > 0 then jsTrim " " else "Unknown Company") :=
  (yahoo_name_resolution whitespaceNameQuote).2 " " rfl

/-- C6: every record returned by the Provider B pipeline has a usable
symbol (non-empty and not `"N/A"`), comes from an upstream quote, and its
numeric fields are the upstream values when finite and `null` otherwise.
-/
theorem yahoo_quotes_filtered (quotes : List YahooQuote) (nq : NormalizedYahooQuote)
    (hmem : nq ∈ yahooNormalizedList quotes) :
    (nq.symbol ≠ "" ∧ nq.symbol ≠ "N/A")
      ∧ ∃ q ∈ quotes, nq = normalizeYahooQuote q
          ∧ (∀ x : ℚ, q.regularMarketPrice = some (JsNum.num x) → nq.price = some x)
          ∧ (isFiniteNumber q.regularMarketPrice = false → nq.price = none)
          ∧ (∀ x : ℚ, q.regularMarketPreviousClose = some (JsNum.num x) →
              nq.previousClose = some x)
          ∧ (isFiniteNumber q.regularMarketPreviousClose = false → nq.previousClose = none)
          ∧ (∀ x : ℚ, q.regularMarketChange = some (JsNum.num x) → nq.change = some x)
          ∧ (isFiniteNumber q.regularMarketChange = false → nq.change = none)
          ∧ (∀ x : ℚ, q.regularMarketChangePercent = some (JsNum.num x) →
              nq.changePercent = some x)
          ∧ (isFiniteNumber q.regularMarketChangePercent = false →
              nq.changePercent = none) := by
  simp only [yahooNormalizedList, List.mem_filter, List.mem_map] at hmem
  obtain ⟨⟨q, hq, hnq⟩, hok⟩ := hmem
  subst hnq
  constructor
  · simp only [symbolOk, Bool.and_eq_true, bne_iff_ne, ne_eq, decide_eq_true_eq] at hok
    obtain ⟨hne, hlen⟩ := hok
    refine ⟨?_, hne⟩
    intro h0
    rw [h0] at hlen
    simp at hlen
  · refine ⟨q, hq, rfl, ?_, ?_, ?_, ?_, ?_, ?_, ?_, ?_⟩
    · exact (finiteOrNull_spec _).1
    · exact (finiteOrNull_spec _).2
    · exact (finiteOrNull_spec _).1
    · exact (finiteOrNull_spec _).2
    · exact (finiteOrNull_spec _).1
    · exact (finiteOrNull_spec _).2
    · exact (finiteOrNull_spec _).1
    · exact (finiteOrNull_spec _).2

/-- C6 witness: the filtered-quotes theorem instantiated at a concrete
one-quote upstream list. -/
theorem yahoo_quotes_filtered_witness :
    (normalizeYahooQuote goodQuote).symbol ≠ ""
      ∧ (normalizeYahooQuote goodQuote).symbol ≠ "N/A" :=
  (yahoo_quotes_filtered [goodQuote] (normalizeYahooQuote goodQuote) (by decide)).1

/-- C9: the Provider B endpoint ignores its `limit` parameter entirely:
for the same upstream response, any two limit parameters give identical
results. -/
theorem yahoo_endpoint_limit_independent (l1 l2 : Option String)
    (resp : FetchResponse YahooFinanceResponse) :
    yahooGainersEndpoint l1 resp = yahooGainersEndpoint l2 resp := rfl

/-- C7: for a valid effective limit in `[1, 20]`, `getTopMovers` fails
exactly when the credential is absent (unset or empty), the transport
response is non-success, or the body carries a non-empty `message` or
`note`; otherwise it returns the full three-list result. -/
theorem providerA_failure_characterization (apiKey : Option String)
    (resp : FetchResponse TopMoversResponse) (n : ℕ) (h1 : 1 ≤ n) (h2 : n ≤ 20) :
    ((∃ e, getTopMovers apiKey resp (JsNum.num (n : ℚ)) = Except.error e) ↔
        (apiKey = none ∨ apiKey = some "" ∨ resp.ok = false
          ∨ resp.body.message.getD "" ≠ "" ∨ resp.body.note.getD "" ≠ ""))
      ∧ ((apiKey ≠ none ∧ apiKey ≠ some "" ∧ resp.ok = true
          ∧ resp.body.message.getD "" = "" ∧ resp.body.note.getD "" = "") →
        getTopMovers apiKey resp (JsNum.num (n : ℚ)) = Except.ok
          { gainers := normalizeList n resp.body.top_gainers
            losers := normalizeList n resp.body.top_losers
            mostActive := normalizeList n resp.body.top_most_actively_traded }) := by
  constructor
  · rw [getTopMovers_error_iff apiKey resp n h1 h2, apiKey_falsy_iff]
    tauto
  · rintro ⟨hk1, hk2, hok, hm, hn⟩
    have hkey : ¬(apiKey.getD "" = "") := by
      rw [apiKey_falsy_iff]
      rintro (h | h)
      · exact hk1 h
      · exact hk2 h
    exact getTopMovers_eq_ok apiKey resp n h1 h2 hkey hok hm hn

/-- C7 witness: with no API key the aggregation errors. -/
theorem providerA_failure_characterization_witness :
    ∃ e, getTopMovers none sampleOkResponse (JsNum.num ((10 : ℕ) : ℚ)) = Except.error e :=
  ((providerA_failure_characterization none sampleOkResponse 10 (by decide)
    (by decide)).1).mpr (Or.inl rfl)

/-- C8: a successful aggregation truncates all three lists with the same
bound `n`, so each output list has length at most `n`; and per-record
normalization commutes with truncation. -/
theorem providerA_truncation (apiKey : Option String)
    (resp : FetchResponse TopMoversResponse) (n : ℕ) (h1 : 1 ≤ n) (h2 : n ≤ 20)
    (out : ToolOutput)
    (hout : getTopMovers apiKey resp (JsNum.num (n : ℚ)) = Except.ok out) :
    (out.gainers = normalizeList n resp.body.top_gainers
      ∧ out.losers = normalizeList n resp.body.top_losers
      ∧ out.mostActive = normalizeList n resp.body.top_most_actively_traded)
      ∧ (out.gainers.length ≤ n ∧ out.losers.length ≤ n ∧ out.mostActive.length ≤ n)
      ∧ (∀ items : List Entry,
          (items.take n).map normalizeEntry = (items.map normalizeEntry).take n) := by
  have hshape := getTopMovers_ok_inv apiKey resp n h1 h2 out hout
  subst hshape
  refine ⟨⟨rfl, rfl, rfl⟩,
    ⟨normalizeList_length_le n _, normalizeList_length_le n _, normalizeList_length_le n _⟩,
    ?_⟩
  intro items
  exact List.map_take normalizeEntry items n

/-- C8 witness: the truncation theorem instantiated at limit 2 on the
sample response. -/
theorem providerA_truncation_witness :
    sampleOut2.gainers.length ≤ 2 ∧ sampleOut2.losers.length ≤ 2
      ∧ sampleOut2.mostActive.length ≤ 2 :=
  (providerA_truncation (some "demo") sampleOkResponse 2 (by decide) (by decide) sampleOut2
    (by decide)).2.1

/-- C1 counterexample: a requested limit of 0 is rejected by the
top-movers endpoint with an error response — it is not clamped to 1 —
while the same request with limit 1 succeeds, so the failure is caused by
the limit alone. -/
theorem limit_zero_rejected_not_clamped :
    (topMoversEndpoint (some "0") (some "demo") sampleOkResponse).isOk = false
      ∧ (topMoversEndpoint (some "1") (some "demo") sampleOkResponse).isOk = true := by
  constructor <;> decide

/-- C1 (amended): the endpoint validates rather than clamps: limit 7
succeeds with effective limit 7, an absent limit defaults to 10, and a
requested limit of 0, 999 or a non-numeric `"abc"` is rejected with an
error response. -/
theorem limit_validation_not_clamping (key : String) (hkey : key ≠ "")
    (resp : FetchResponse TopMoversResponse) (hok : resp.ok = true)
    (hmsg : resp.body.message.getD "" = "") (hnote : resp.body.note.getD "" = "") :
    topMoversEndpoint (some "7") (some key) resp = ApiResult.ok
        { gainers := normalizeList 7 resp.body.top_gainers
          losers := normalizeList 7 resp.body.top_losers
          mostActive := normalizeList 7 resp.body.top_most_actively_traded }
      ∧ topMoversEndpoint none (some key) resp = ApiResult.ok
          { gainers := normalizeList 10 resp.body.top_gainers
            losers := normalizeList 10 resp.body.top_losers
            mostActive := normalizeList 10 resp.body.top_most_actively_traded }
      ∧ (topMoversEndpoint (some "0") (some key) resp).isOk = false
      ∧ (topMoversEndpoint (some "999") (some key) resp).isOk = false
      ∧ (topMoversEndpoint (some "abc") (some key) resp).isOk = false := by
  have hkey' : ¬((some key).getD "" = "") := by simpa using hkey
  refine ⟨?_, ?_, ?_, ?_, ?_⟩
  · have hr : limitSchemaParse (some (resolveLimitParam (some "7"))) = Except.ok 7 := by
      decide
    simp only [topMoversEndpoint, hr,
      getTopMovers_eq_ok (some key) resp 7 (by norm_num) (by norm_num) hkey' hok hmsg hnote]
  · have hr : limitSchemaParse (some (resolveLimitParam none)) = Except.ok 10 := by decide
    simp only [topMoversEndpoint, hr,
      getTopMovers_eq_ok (some key) resp 10 (by norm_num) (by norm_num) hkey' hok hmsg hnote]
  · have hr : limitSchemaParse (some (resolveLimitParam (some "0")))
        = Except.error "Number must be greater than or equal to 1" := by decide
    simp [topMoversEndpoint, hr, ApiResult.isOk]
  · have hr : limitSchemaParse (some (resolveLimitParam (some "999")))
        = Except.error "Number must be less than or equal to 20" := by decide
    simp [topMoversEndpoint, hr, ApiResult.isOk]
  · have hr : limitSchemaParse (some (resolveLimitParam (some "abc")))
        = Except.error "limit must be a number" := by decide
    simp [topMoversEndpoint, hr, ApiResult.isOk]

/-- C1 witness: the validation theorem instantiated at the sample
response with a concrete key. -/
theorem limit_validation_not_clamping_witness :
    topMoversEndpoint (some "7") (some "demo") sampleOkResponse = ApiResult.ok
        { gainers := normalizeList 7 sampleOkResponse.body.top_gainers
          losers := normalizeList 7 sampleOkResponse.body.top_losers
          mostActive := normalizeList 7 sampleOkResponse.body.top_most_actively_traded }
      ∧ (topMoversEndpoint (some "999") (some "demo") sampleOkResponse).isOk = false :=
  ⟨(limit_validation_not_clamping "demo" (by decide) sampleOkResponse rfl rfl rfl).1,
   (limit_validation_not_clamping "demo" (by decide) sampleOkResponse rfl rfl
     rfl).2.2.2.1⟩

end TopMovers
